import Mathlib

/-!
Shallow embedding of `src/python/lib/tmdbscraper/api_utils.py`
(Kodi TMDB scraper optimization plugin, API access helper).

Python values that can appear after a `json.loads` round trip, plus the
argument values the module's functions receive, are modelled by `JValue`.
Python `None` is `JValue.jnull`.  JSON numbers are modelled as integers,
which covers every value the claims under study touch.
-/

namespace TmdbApiUtils

inductive JValue where
  | jnull
  | jbool (b : Bool)
  | jnum (n : Int)
  | jstr (s : String)
  | jarr (elems : List JValue)
  | jobj (fields : List (String × JValue))
  deriving Repr

/-- Python dictionaries with string keys, as association lists
(first binding of a key wins on lookup, as a Python dict has unique keys). -/
abbrev Dict := List (String × JValue)

/-- `d[k]` lookup returning `none` when the key is absent. -/
def dictGet (d : Dict) (k : String) : Option JValue :=
  match d with
  | [] => none
  | (k', v) :: rest => if k' = k then some v else dictGet rest k

/-- `k in d` for a dict. -/
def dictHas (d : Dict) (k : String) : Bool :=
  (dictGet d k).isSome

/-- `d[k] = v`: replace the binding of `k` if present, else append. -/
def dictInsert (d : Dict) (k : String) (v : JValue) : Dict :=
  match d with
  | [] => [(k, v)]
  | (k', v') :: rest => if k' = k then (k, v) :: rest else (k', v') :: dictInsert rest k v

/-- `d.update(m)`: insert every binding of `m` into `d`, in order. -/
def dictUpdate (d : Dict) (m : Dict) : Dict :=
  m.foldl (fun acc kv => dictInsert acc kv.1 kv.2) d

/-- Python truthiness of a value (`bool(v)`). -/
def pyTruthy : JValue → Bool
  | .jnull => false
  | .jbool b => b
  | .jnum n => n != 0
  | .jstr s => s != ""
  | .jarr xs => !xs.isEmpty
  | .jobj fs => !fs.isEmpty

/-- Truthiness of an optional argument whose Python default is `None`. -/
def optTruthy : Option JValue → Bool
  | none => false
  | some v => pyTruthy v

/-!
Python `int(s)` on a string: optional surrounding whitespace, optional
sign, then a nonempty digit run in which a single underscore may separate
two digits.  Anything else raises `ValueError`.
-/

/-- Digit run after the first digit: each further digit may be preceded by
one underscore; a trailing or doubled underscore is invalid. -/
def pyDigitsAux : List Char → Nat → Option Nat
  | [], acc => some acc
  | '_' :: c :: rest, acc =>
      if c.isDigit then pyDigitsAux rest (acc * 10 + (c.toNat - 48)) else none
  | ['_'], _ => none
  | c :: rest, acc =>
      if c.isDigit then pyDigitsAux rest (acc * 10 + (c.toNat - 48)) else none

/-- Nonempty digit run with optional single-underscore separators. -/
def pyDigits : List Char → Option Nat
  | [] => none
  | c :: rest => if c.isDigit then pyDigitsAux rest (c.toNat - 48) else none

/-- The surrounding-whitespace stripping `int()` performs (`str.strip()`),
over the character list (ASCII whitespace suffices for the inputs the
module can see). -/
def pyStrip (s : String) : List Char :=
  ((s.data.dropWhile Char.isWhitespace).reverse.dropWhile Char.isWhitespace).reverse

/-- Python `int(s)` for a base-10 string literal; `Except.error` is the
`ValueError` message. -/
def pyInt (s : String) : Except String Int :=
  match pyStrip s with
  | '-' :: rest =>
      match pyDigits rest with
      | some n => .ok (-(n : Int))
      | none => .error ("invalid literal for int with base 10: " ++ s)
  | '+' :: rest =>
      match pyDigits rest with
      | some n => .ok (n : Int)
      | none => .error ("invalid literal for int with base 10: " ++ s)
  | cs =>
      match pyDigits cs with
      | some n => .ok (n : Int)
      | none => .error ("invalid literal for int with base 10: " ++ s)

/-- Python exceptions that the modelled code can raise or observe. -/
inductive PyExc where
  | valueError (msg : String)
  | typeError (msg : String)
  | keyError (msg : String)
  | attributeError (msg : String)
  | oSError (msg : String)
  | jsonError (msg : String)
  | httpError (msg : String)
  | nameError (msg : String)
  deriving Repr, DecidableEq

/-- `str(e)` — the message carried by an exception. -/
def PyExc.message : PyExc → String
  | .valueError m | .typeError m | .keyError m | .attributeError m
  | .oSError m | .jsonError m | .httpError m | .nameError m => m

/-!
External collaborators of `load_info_from_service` (host property store,
socket layer, `json.loads`) are modelled as oracles in an environment
record; the function's own control flow is translated from the source.
-/

/-- Observable socket actions, used to state which connections are
attempted and what payload is sent. -/
inductive SockEvent where
  | connect (port : Int)
  | send (payload : JValue)
  deriving Repr

structure ServiceEnv where
  /-- whether the `xbmcgui` module imported successfully -/
  xbmcgui : Bool
  /-- whether the `xbmc` logging module imported successfully -/
  xbmc : Bool
  /-- `xbmcgui.Window(10000).getProperty` of the service-port key
  (empty string when the property is absent) -/
  portProperty : String
  /-- outcome of `sock.connect((SERVICE_HOST, port))`: an exception, or
  `none` for success -/
  connectErr : Int → Option PyExc
  /-- outcome of `sock.sendall(...)` of the serialized payload -/
  sendErr : Int → JValue → Option PyExc
  /-- the `recv` loop: accumulated response bytes (as a string), or an
  exception raised mid-read -/
  recvData : Int → JValue → Except PyExc String
  /-- `json.loads`; `Except.error` is the decode-error message -/
  jsonLoads : String → Except String JValue

/-- Process-wide mutable module state: the `HEADERS` and `DNS_SETTINGS`
dictionaries. -/
structure GlobalState where
  HEADERS : Dict
  DNS_SETTINGS : Dict

/-- `set_headers(headers)`: `HEADERS.clear()` then `HEADERS.update(headers)`. -/
def set_headers (headers : Dict) (st : GlobalState) : GlobalState :=
  { st with HEADERS := dictUpdate [] headers }

/-- `set_dns_settings(settings)`: `DNS_SETTINGS.clear()`, then update only
when `settings` is truthy (`None` and `{}` both leave it cleared). -/
def set_dns_settings (settings : Option Dict) (st : GlobalState) : GlobalState :=
  match settings with
  | some s =>
      if !s.isEmpty then { st with DNS_SETTINGS := dictUpdate [] s }
      else { st with DNS_SETTINGS := [] }
  | none => { st with DNS_SETTINGS := [] }

/-- Builds the `{error: ...}` dictionary the module uses for structured
errors. -/
def errorObj (msg : String) : JValue :=
  .jobj [("error", .jstr msg)]

/--
The except clause at line 120 of the source — the first of three sibling
`except Exception` handlers, hence the only one that can run.  It begins
with `isinstance(result, dict) and 'error' in result`; when the local
`result` is not yet bound at the point the exception was raised, that
lookup itself raises `NameError`, which no sibling handler catches, so it
propagates to the caller.  `resultVar` is the binding state of the local
`result` when the handler starts.
-/
def handleServiceExc (resultVar : Option JValue) : Except PyExc JValue :=
  match resultVar with
  | none => .error (.nameError "name result is not defined")
  | some result =>
      match result with
      | .jobj d =>
          if dictHas d "error" then
            .ok (.jobj [("error", (dictGet d "error").getD .jnull)])
          else .ok result
      | v => .ok v

/-- Source lines 78–118: connect, build the Protocol V2 payload, send,
read until the peer closes, decode, and unwrap a singleton list result.
Any exception goes to `handleServiceExc` with the binding state of the
local `result` at that point (always unbound: the last possible raise is
`json.loads`, whose success is what binds `result`).  The second
component is the trace of socket actions performed. -/
def socketPhase (env : ServiceEnv) (st : GlobalState) (url : String)
    (params headers batch_payload dns_settings : Option JValue)
    (service_port : Int) : Except PyExc JValue × List SockEvent :=
  match env.connectErr service_port with
  | some _ => (handleServiceExc none, [.connect service_port])
  | none =>
    let requests_list : JValue :=
      if optTruthy batch_payload then batch_payload.getD .jnull
      else
        .jarr [.jobj [("url", .jstr url),
                      ("params", params.getD .jnull),
                      ("headers",
                       if optTruthy headers then headers.getD .jnull else .jobj [])]]
    let request_data : JValue :=
      .jobj [("requests", requests_list),
             ("dns_settings",
              if optTruthy dns_settings then dns_settings.getD .jnull
              else .jobj st.DNS_SETTINGS)]
    let trace := [SockEvent.connect service_port, SockEvent.send request_data]
    match env.sendErr service_port request_data with
    | some _ => (handleServiceExc none, trace)
    | none =>
      match env.recvData service_port request_data with
      | .error _ => (handleServiceExc none, trace)
      | .ok response_data =>
        if response_data = "" then
          (.ok (errorObj "Empty response from service"), trace)
        else
          match env.jsonLoads response_data with
          | .error _ => (handleServiceExc none, trace)
          | .ok result =>
            if !optTruthy batch_payload then
              match result with
              | .jarr [x] => (.ok x, trace)
              | other => (.ok other, trace)
            else (.ok result, trace)

/-- `load_info_from_service(url, params, headers, batch_payload,
dns_settings)`, source lines 63–137.  Returns the Python return value
(`Except.error` meaning an exception escaped) and the socket-action
trace. -/
def load_info_from_service (env : ServiceEnv) (st : GlobalState) (url : String)
    (params headers batch_payload dns_settings : Option JValue) :
    Except PyExc JValue × List SockEvent :=
  -- service_port = 56789  # Default fallback
  if env.xbmcgui then
    let port_str := env.portProperty
    if port_str ≠ "" then
      match pyInt port_str with
      | .error _ => (handleServiceExc none, [])
      | .ok service_port =>
          socketPhase env st url params headers batch_payload dns_settings service_port
    else
      (.ok (errorObj "Service port not found in Window Property"), [])
  else
    socketPhase env st url params headers batch_payload dns_settings 56789

/-!
The request façade `load_info`, source lines 139–189.  Its extra external
collaborator is `requests.get`, modelled as an oracle keyed by the exact
arguments the source passes.
-/

/-- Python `s.lower()`; the module only compares ASCII strings this way. -/
def pyLower (s : String) : String :=
  ⟨s.data.map Char.toLower⟩

/-- `charsStartWith p s`: `p` is an initial segment of `s`. -/
def charsStartWith : List Char → List Char → Bool
  | [], _ => true
  | _ :: _, [] => false
  | a :: as, b :: bs => a == b && charsStartWith as bs

/-- `charsContain n s`: `n` occurs contiguously inside `s`. -/
def charsContain (needle : List Char) : List Char → Bool
  | [] => needle.isEmpty
  | b :: bs => charsStartWith needle (b :: bs) || charsContain needle bs

/-- Python `needle in v` for a string needle: key test on a dict, element
equality on a list, substring test on a string; `TypeError` otherwise. -/
def pyContainsStr (needle : String) : JValue → Except PyExc Bool
  | .jobj d => .ok (dictHas d needle)
  | .jarr xs => .ok (xs.any fun x => match x with | .jstr s => s == needle | _ => false)
  | .jstr s => .ok (charsContain needle.toList s.toList)
  | _ => .error (.typeError "argument of type is not iterable")

/-- Python `v.get(k)`: defined on dicts only (`AttributeError` otherwise),
returning `None` when the key is absent. -/
def pyGet (v : JValue) (k : String) : Except PyExc (Option JValue) :=
  match v with
  | .jobj d => .ok (dictGet d k)
  | _ => .error (.attributeError "object has no attribute get")

/-- Python `v[k]` for a string key. -/
def pyGetItem (v : JValue) (k : String) : Except PyExc JValue :=
  match v with
  | .jobj d =>
      match dictGet d k with
      | some x => .ok x
      | none => .error (.keyError k)
  | _ => .error (.typeError "indices must be integers")

structure HttpResponse where
  status : Nat
  text : String
  deriving Repr

/-- The arguments of one `requests.get` call issued by the fallback path. -/
structure DirectReq where
  url : String
  params : Option JValue
  headers : Dict
  timeout : Nat
  deriving Repr

structure FacadeEnv where
  service : ServiceEnv
  /-- `requests.get(url, params=..., headers=..., timeout=...)`: a
  response, or the connection-level exception it raises -/
  directGet : String → Option JValue → Dict → Nat → Except PyExc HttpResponse

/-- `resp.raise_for_status()`: `requests` raises `HTTPError` exactly for
the client- and server-error codes 400–599; every other status (including
informational 1xx responses and non-standard codes of 600 and above)
returns normally. -/
def raiseForStatus (resp : HttpResponse) : Option PyExc :=
  if 400 ≤ resp.status ∧ resp.status < 600 then
    some (.httpError ("HTTP status " ++ toString resp.status))
  else none

/-- `load_info(url, params, default, resp_type)`, source lines 139–189.
Returns the Python return value (`Except.error` meaning an exception
escaped), the socket trace of the service attempt, and the list of direct
`requests.get` calls issued. -/
def load_info (env : FacadeEnv) (st : GlobalState) (url : String)
    (params default : Option JValue) (resp_type : String) :
    Except PyExc JValue × List SockEvent × List DirectReq :=
  -- the debug log of url/headers (lines 152–159) does not affect the value
  let sr := load_info_from_service env.service st url params (some (.jobj st.HEADERS)) none none
  match sr.1 with
  | .error e => (.error e, sr.2, [])
  | .ok service_result =>
    match pyContainsStr "error" service_result with
    | .error e => (.error e, sr.2, [])
    | .ok hasErr =>
      if !hasErr then
        -- Success
        if pyLower resp_type = "json" then
          -- service_result.get('json') or json.loads(service_result.get('text', '\x7b\x7d'))
          match pyGet service_result "json" with
          | .error e => (.error e, sr.2, [])
          | .ok jopt =>
            let jv := jopt.getD .jnull
            if pyTruthy jv then (.ok jv, sr.2, [])
            else
              match pyGet service_result "text" with
              | .error e => (.error e, sr.2, [])
              | .ok topt =>
                match topt.getD (.jstr "\x7b\x7d") with
                | .jstr s =>
                  match env.service.jsonLoads s with
                  | .ok v => (.ok v, sr.2, [])
                  | .error m => (.error (.jsonError m), sr.2, [])
                | _ => (.error (.typeError "the JSON object must be str"), sr.2, [])
        else
          match pyGet service_result "text" with
          | .error e => (.error e, sr.2, [])
          | .ok topt => (.ok (topt.getD .jnull), sr.2, [])
      else
        -- the warning log (line 173) formats service_result['error'] when
        -- xbmc is present; that subscript can itself raise
        let logRes : Except PyExc Unit :=
          if env.service.xbmc then
            match pyGetItem service_result "error" with
            | .error e => .error e
            | .ok _ => .ok ()
          else .ok ()
        match logRes with
        | .error e => (.error e, sr.2, [])
        | .ok _ =>
          let req : DirectReq := ⟨url, params, st.HEADERS, 30⟩
          let attempt : Except PyExc JValue :=
            match env.directGet url params st.HEADERS 30 with
            | .error e => .error e
            | .ok resp =>
              match raiseForStatus resp with
              | some e => .error e
              | none =>
                if pyLower resp_type = "json" then
                  match env.service.jsonLoads resp.text with
                  | .ok v => .ok v
                  | .error m => .error (.jsonError m)
                else .ok (.jstr resp.text)
          match attempt with
          | .ok v => (.ok v, sr.2, [req])
          | .error e =>
            match default with
            | some d => (.ok d, sr.2, [req])
            | none => (.ok (errorObj ("Direct request failed: " ++ e.message)), sr.2, [req])

/-!
Derived notions used to state properties, plus concrete environments used
as counterexamples and witnesses.
-/

/-- The single-result unwrapping of lines 115–116: a one-element list
becomes its sole element, everything else is unchanged. -/
def unwrapSingle : JValue → JValue
  | .jarr [x] => x
  | v => v

/-- The `headers` field of the sole envelope inside a sent request
payload, when the payload has that shape. -/
def envelopeHeaders (pl : JValue) : Option JValue :=
  match pl with
  | .jobj fs =>
      match dictGet fs "requests" with
      | some (.jarr [.jobj e]) => dictGet e "headers"
      | _ => none
  | _ => none

def stEmpty : GlobalState := ⟨[], []⟩

/-- Service environment where the property store is absent and the socket
connect is refused. -/
def envRefused : ServiceEnv :=
  { xbmcgui := false, xbmc := false, portProperty := ""
  , connectErr := fun _ => some (.oSError "Connection refused")
  , sendErr := fun _ _ => none
  , recvData := fun _ _ => .ok ""
  , jsonLoads := fun _ => .error "no document" }

/-- Property store present, port property holds the non-numeric
string `abc`, socket healthy. -/
def envBadPort : ServiceEnv :=
  { envRefused with
    xbmcgui := true,
    portProperty := "abc",
    connectErr := fun _ => none }

/-- Property store present but the port property is the empty string. -/
def envNoPort : ServiceEnv :=
  { envRefused with xbmcgui := true }

def loadsSingle : String → Except String JValue := fun s =>
  if s = "R" then .ok (.jarr [.jstr "x"]) else .error "bad"

/-- Healthy service returning the one-element list `["x"]`. -/
def envSingle : ServiceEnv :=
  { xbmcgui := false, xbmc := false, portProperty := ""
  , connectErr := fun _ => none
  , sendErr := fun _ _ => none
  , recvData := fun _ _ => .ok "R"
  , jsonLoads := loadsSingle }

/-- Healthy connection but the peer closes without sending anything. -/
def envEmptyResp : ServiceEnv :=
  { envSingle with recvData := fun _ _ => .ok "" }

def loadsC4 : String → Except String JValue := fun s =>
  if s = "R" then .ok (.jobj [("json", .jnum 0), ("text", .jstr "5")])
  else if s = "5" then .ok (.jnum 5)
  else .error "bad"

/-- Service returns a result whose `json` field is present but falsy
(`0`) and whose `text` field parses to `5`. -/
def envC4 : FacadeEnv :=
  { service := { envSingle with jsonLoads := loadsC4 }
  , directGet := fun _ _ _ _ => .error (.oSError "unreachable") }

def loadsErr : String → Except String JValue := fun s =>
  if s = "E" then .ok (.jobj [("error", .jstr "svc down")]) else .error "bad"

/-- Service reports an error and the direct request raises too. -/
def envBoth : FacadeEnv :=
  { service :=
    { xbmcgui := false, xbmc := true, portProperty := ""
    , connectErr := fun _ => none
    , sendErr := fun _ _ => none
    , recvData := fun _ _ => .ok "E"
    , jsonLoads := loadsErr }
  , directGet := fun _ _ _ _ => .error (.oSError "refused") }

def loadsErrB : String → Except String JValue := fun s =>
  if s = "E" then .ok (.jobj [("error", .jstr "svc down")])
  else if s = "B" then .ok (.jobj [("b", .jnum 2)])
  else .error "bad"

/-- Service reports an error; the direct endpoint answers 200 with body
`B`, which decodes to the object with field `b = 2`. -/
def envDirectOk : FacadeEnv :=
  { envBoth with
    directGet := fun _ _ _ _ => .ok ⟨200, "B"⟩,
    service := { envBoth.service with jsonLoads := loadsErrB } }

/-- Service reports an error; the direct endpoint answers with the
informational status 103 (not a 2xx/3xx code, yet one `raise_for_status`
accepts) and body `B`. -/
def env103 : FacadeEnv :=
  { envDirectOk with directGet := fun _ _ _ _ => .ok ⟨103, "B"⟩ }

def loadsStatus : String → Except String JValue := fun s =>
  if s = "R" then .ok (.jobj [("status", .jnum 200)]) else .error "bad"

/-- Service succeeds with a result that has neither `error` nor `text`. -/
def envNoText : FacadeEnv :=
  { envC4 with service := { envC4.service with jsonLoads := loadsStatus } }

/-!
Helper lemmas (shared across the claim theorems), followed by one theorem
per claim of the specification review, each with its witness or
counterexample where applicable.
-/

theorem dictUpdate_cons_notMem (k₀ : String) (v₀ : JValue) (d m : Dict)
    (h : k₀ ∉ m.map Prod.fst) :
    dictUpdate ((k₀, v₀) :: d) m = (k₀, v₀) :: dictUpdate d m := by
  induction m generalizing d with
  | nil => rfl
  | cons kv m ih =>
      obtain ⟨k₁, v₁⟩ := kv
      simp only [List.map_cons, List.mem_cons] at h
      push_neg at h
      show dictUpdate (dictInsert ((k₀, v₀) :: d) k₁ v₁) m
          = (k₀, v₀) :: dictUpdate (dictInsert d k₁ v₁) m
      rw [show dictInsert ((k₀, v₀) :: d) k₁ v₁ = (k₀, v₀) :: dictInsert d k₁ v₁ from by
        simp only [dictInsert, if_neg h.1]]
      exact ih (dictInsert d k₁ v₁) h.2

theorem dictUpdate_nil_eq (m : Dict) (h : (m.map Prod.fst).Nodup) :
    dictUpdate [] m = m := by
  induction m with
  | nil => rfl
  | cons kv m ih =>
      obtain ⟨k₀, v₀⟩ := kv
      simp only [List.map_cons, List.nodup_cons] at h
      show dictUpdate (dictInsert [] k₀ v₀) m = (k₀, v₀) :: m
      rw [show dictInsert [] k₀ v₀ = [(k₀, v₀)] from rfl]
      rw [show ([(k₀, v₀)] : Dict) = (k₀, v₀) :: ([] : Dict) from rfl]
      rw [dictUpdate_cons_notMem k₀ v₀ [] m h.1]
      rw [ih h.2]

theorem socketPhase_trace_head (env : ServiceEnv) (st : GlobalState) (url : String)
    (p h b d : Option JValue) (prt : Int) :
    (socketPhase env st url p h b d prt).2.head? = some (.connect prt) := by
  simp only [socketPhase]
  repeat' split
  all_goals simp

theorem socketPhase_send_mem (env : ServiceEnv) (st : GlobalState) (url : String)
    (p d : Option JValue) (H : Dict) (prt : Int) (pl : JValue)
    (hmem : SockEvent.send pl ∈ (socketPhase env st url p (some (.jobj H)) none d prt).2) :
    envelopeHeaders pl = some (.jobj H) := by
  cases H with
  | nil =>
      simp only [socketPhase, optTruthy, pyTruthy, List.isEmpty_nil, Bool.not_true,
        Bool.false_eq_true, if_false, Option.getD_some] at hmem
      repeat' split at hmem
      all_goals simp only [List.mem_cons, List.not_mem_nil, or_false] at hmem
      all_goals (
        first
          | (rcases hmem with hmem | hmem
             · exact SockEvent.noConfusion hmem
             · (injection hmem with hpl; subst hpl; rfl))
          | exact SockEvent.noConfusion hmem)
  | cons a t =>
      simp only [socketPhase, optTruthy, pyTruthy, List.isEmpty_cons, Bool.not_false,
        Bool.false_eq_true, if_false, if_true, Option.getD_some] at hmem
      repeat' split at hmem
      all_goals simp only [List.mem_cons, List.not_mem_nil, or_false] at hmem
      all_goals (
        first
          | (rcases hmem with hmem | hmem
             · exact SockEvent.noConfusion hmem
             · (injection hmem with hpl; subst hpl; rfl))
          | exact SockEvent.noConfusion hmem)

theorem service_send_mem (env : ServiceEnv) (st : GlobalState) (url : String)
    (params dns : Option JValue) (H : Dict) (pl : JValue)
    (hmem : SockEvent.send pl
      ∈ (load_info_from_service env st url params (some (.jobj H)) none dns).2) :
    envelopeHeaders pl = some (.jobj H) := by
  simp only [load_info_from_service] at hmem
  repeat' split at hmem
  all_goals first
    | exact absurd hmem (List.not_mem_nil _)
    | exact socketPhase_send_mem _ _ _ _ _ _ _ _ hmem

theorem load_info_strace (env : FacadeEnv) (st : GlobalState) (url : String)
    (params default : Option JValue) (rt : String) :
    (load_info env st url params default rt).2.1
      = (load_info_from_service env.service st url params
          (some (.jobj st.HEADERS)) none none).2 := by
  simp only [load_info]
  repeat' split
  all_goals rfl

theorem load_info_dreq_mem (env : FacadeEnv) (st : GlobalState) (url : String)
    (params default : Option JValue) (rt : String) (r : DirectReq)
    (hr : r ∈ (load_info env st url params default rt).2.2) :
    r = ⟨url, params, st.HEADERS, 30⟩ := by
  simp only [load_info] at hr
  repeat' split at hr
  all_goals first
    | exact absurd hr (List.not_mem_nil _)
    | simpa using hr

theorem service_resolves (env : ServiceEnv) (st : GlobalState) (url : String)
    (p h b d : Option JValue) (prt : Int)
    (hport : env.xbmcgui = false ∧ prt = 56789
      ∨ env.xbmcgui = true ∧ env.portProperty ≠ "" ∧ pyInt env.portProperty = .ok prt) :
    load_info_from_service env st url p h b d = socketPhase env st url p h b d prt := by
  rcases hport with ⟨hgui, hprt⟩ | ⟨hgui, hne, hint⟩
  · subst hprt
    simp [load_info_from_service, hgui]
  · simp [load_info_from_service, hgui, hne, hint]

theorem socketPhase_ok (env : ServiceEnv) (st : GlobalState) (url : String)
    (p h b d : Option JValue) (prt : Int) (data : String) (result : JValue)
    (hconn : env.connectErr prt = none)
    (hsend : ∀ pl, env.sendErr prt pl = none)
    (hrecv : ∀ pl, env.recvData prt pl = .ok data)
    (hne : data ≠ "")
    (hdec : env.jsonLoads data = .ok result) :
    (socketPhase env st url p h b d prt).1
      = .ok (if optTruthy b then result else unwrapSingle result) := by
  simp only [socketPhase, hconn, hsend, hrecv, hdec, hne, if_neg]
  cases hob : optTruthy b with
  | true => simp [hob]
  | false =>
      simp only [hob, Bool.not_false, if_true]
      rcases result with _ | b' | n | s | xs | fs
      case jarr => rcases xs with _ | ⟨x, _ | ⟨y, t⟩⟩ <;> rfl
      all_goals rfl

theorem socketPhase_empty (env : ServiceEnv) (st : GlobalState) (url : String)
    (p h b d : Option JValue) (prt : Int)
    (hconn : env.connectErr prt = none)
    (hsend : ∀ pl, env.sendErr prt pl = none)
    (hrecv : ∀ pl, env.recvData prt pl = .ok "") :
    (socketPhase env st url p h b d prt).1
      = .ok (errorObj "Empty response from service") := by
  simp only [socketPhase, hconn, hsend, hrecv]
  simp

/-- Claim C1: the claim states that every exception inside
`load_info_from_service` is converted to an error dictionary.  The code
contradicts it: with the property store absent and the connect refused,
the sole live handler reads the unbound local `result` and the function
raises `NameError` to its caller. -/
theorem claim_C1_exception_escapes :
    (∃ e, envRefused.connectErr 56789 = some e)
    ∧ (load_info_from_service envRefused stEmpty "u" none none none none).1
        = .error (.nameError "name result is not defined") :=
  ⟨⟨.oSError "Connection refused", rfl⟩, rfl⟩

/-- Claim C2: the claim states that a non-numeric port property yields a
structured error dictionary.  The code contradicts it: `int('abc')`
raises `ValueError`, and the handler then raises `NameError` out of the
function. -/
theorem claim_C2_bad_port_raises :
    envBadPort.xbmcgui = true
    ∧ envBadPort.portProperty = "abc"
    ∧ (∃ msg, pyInt "abc" = .error msg)
    ∧ (load_info_from_service envBadPort stEmpty "u" none none none none).1
        = .error (.nameError "name result is not defined") :=
  ⟨rfl, rfl, ⟨"invalid literal for int with base 10: abc", rfl⟩, rfl⟩

/-- Claim C3, counterexample: with `batch_payload` supplied as the empty
list (a falsy value), the decoded one-element list is still unwrapped,
against the claim that every supplied `batch_payload` preserves the
decoded value. -/
theorem claim_C3_counterexample :
    (load_info_from_service envSingle stEmpty "u" none none (some (.jarr [])) none).1
      = .ok (.jstr "x")
    ∧ envSingle.jsonLoads "R" = .ok (.jarr [.jstr "x"])
    ∧ JValue.jstr "x" ≠ JValue.jarr [.jstr "x"] :=
  ⟨rfl, rfl, fun h => JValue.noConfusion h⟩

/-- Claim C3 (amended): with a healthy exchange decoding to `result`, the
call unwraps a one-element list result exactly when `batch_payload` is
falsy (absent or empty), and returns the decoded value unchanged
otherwise. -/
theorem claim_C3_amended_unwrap (env : ServiceEnv) (st : GlobalState) (url : String)
    (p h b d : Option JValue) (prt : Int) (data : String) (result : JValue)
    (hport : env.xbmcgui = false ∧ prt = 56789
      ∨ env.xbmcgui = true ∧ env.portProperty ≠ "" ∧ pyInt env.portProperty = .ok prt)
    (hconn : env.connectErr prt = none)
    (hsend : ∀ pl, env.sendErr prt pl = none)
    (hrecv : ∀ pl, env.recvData prt pl = .ok data)
    (hne : data ≠ "")
    (hdec : env.jsonLoads data = .ok result) :
    (load_info_from_service env st url p h b d).1
      = .ok (if optTruthy b then result else unwrapSingle result) := by
  rw [service_resolves env st url p h b d prt hport]
  exact socketPhase_ok env st url p h b d prt data result hconn hsend hrecv hne hdec

theorem claim_C3_amended_unwrap_witness :
    (load_info_from_service envSingle stEmpty "u" none none none none).1
      = .ok (if optTruthy none then JValue.jarr [.jstr "x"]
             else unwrapSingle (JValue.jarr [.jstr "x"])) :=
  claim_C3_amended_unwrap envSingle stEmpty "u" none none none none 56789 "R"
    (.jarr [.jstr "x"]) (Or.inl ⟨rfl, rfl⟩) rfl (fun _ => rfl) (fun _ => rfl)
    (by decide) rfl

/-- Claim C4, counterexample: the service result has a `json` field
present (value `0`), yet `load_info` returns the parse of the `text`
field (`5`) because the code tests truthiness, not presence. -/
theorem claim_C4_counterexample :
    (load_info envC4 stEmpty "u" none none "json").1 = .ok (.jnum 5)
    ∧ envC4.service.jsonLoads "R"
        = .ok (.jobj [("json", .jnum 0), ("text", .jstr "5")])
    ∧ dictGet [("json", .jnum 0), ("text", .jstr "5")] "json" = some (.jnum 0)
    ∧ JValue.jnum 5 ≠ JValue.jnum 0 :=
  ⟨rfl, rfl, rfl, by simp⟩

/-- Claim C4 (amended): on a successful service result (an object without
an `error` key), with a JSON response type `load_info` returns the `json`
field when it is present and truthy, and otherwise the JSON parse of the
`text` field, defaulting to the empty-object string when `text` is
absent; for any other response type it returns the raw `text` field
(`None` when absent). -/
theorem claim_C4_amended_json_branch (env : FacadeEnv) (st : GlobalState) (url : String)
    (params default : Option JValue) (rt : String) (d : Dict)
    (hsvc : (load_info_from_service env.service st url params
        (some (.jobj st.HEADERS)) none none).1 = .ok (.jobj d))
    (herr : dictHas d "error" = false) :
    (pyLower rt = "json" →
      (∀ jv, dictGet d "json" = some jv → pyTruthy jv = true →
        (load_info env st url params default rt).1 = .ok jv)
      ∧ (pyTruthy ((dictGet d "json").getD .jnull) = false →
          ∀ ts w, (dictGet d "text").getD (.jstr "\x7b\x7d") = .jstr ts →
            env.service.jsonLoads ts = .ok w →
            (load_info env st url params default rt).1 = .ok w))
    ∧ (pyLower rt ≠ "json" →
        (load_info env st url params default rt).1
          = .ok ((dictGet d "text").getD .jnull)) := by
  constructor
  · intro hrt
    constructor
    · intro jv hjv htr
      simp only [load_info, hsvc, pyContainsStr, herr, pyGet, hjv, hrt]
      simp [htr]
    · intro hfal ts w hts hw
      simp only [load_info, hsvc, pyContainsStr, herr, pyGet, hrt]
      simp only [Bool.not_false, if_true]
      rw [if_neg (by rw [hfal]; exact fun hh => Bool.noConfusion hh)]
      rw [hts]
      simp [hw]
  · intro hrt
    simp only [load_info, hsvc, pyContainsStr, herr, pyGet]
    simp [hrt]

theorem claim_C4_amended_json_branch_witness :
    (load_info envC4 stEmpty "u" none none "json").1 = .ok (.jnum 5)
    ∧ (load_info envC4 stEmpty "u" none none "text").1 = .ok (.jstr "5") :=
  ⟨((claim_C4_amended_json_branch envC4 stEmpty "u" none none "json"
      [("json", .jnum 0), ("text", .jstr "5")] rfl rfl).1 rfl).2
    rfl "5" (.jnum 5) rfl rfl,
   (claim_C4_amended_json_branch envC4 stEmpty "u" none none "text"
      [("json", .jnum 0), ("text", .jstr "5")] rfl rfl).2 (by decide)⟩

/-- Claim C5: with the property store available but the port property
empty, the call returns the port-discovery error and attempts no socket
connection; the fallback port 56789 is connected only when the store is
entirely absent, and a non-empty parseable property always yields a
connection to the parsed port. -/
theorem claim_C5_port_discovery (env : ServiceEnv) (st : GlobalState) (url : String)
    (p h b d : Option JValue) :
    (env.xbmcgui = true → env.portProperty = "" →
      (load_info_from_service env st url p h b d).1
        = .ok (errorObj "Service port not found in Window Property")
      ∧ (load_info_from_service env st url p h b d).2 = [])
    ∧ (env.xbmcgui = false →
        (load_info_from_service env st url p h b d).2.head?
          = some (.connect 56789))
    ∧ (∀ prt, env.xbmcgui = true → env.portProperty ≠ "" →
        pyInt env.portProperty = .ok prt →
        (load_info_from_service env st url p h b d).2.head?
          = some (.connect prt)) := by
  refine ⟨?_, ?_, ?_⟩
  · intro hgui hprop
    constructor <;> simp [load_info_from_service, hgui, hprop]
  · intro hgui
    rw [service_resolves env st url p h b d 56789 (Or.inl ⟨hgui, rfl⟩)]
    exact socketPhase_trace_head env st url p h b d 56789
  · intro prt hgui hprop hint
    rw [service_resolves env st url p h b d prt (Or.inr ⟨hgui, hprop, hint⟩)]
    exact socketPhase_trace_head env st url p h b d prt

theorem claim_C5_port_discovery_witness :
    (load_info_from_service envNoPort stEmpty "u" none none none none).1
      = .ok (errorObj "Service port not found in Window Property")
    ∧ (load_info_from_service envNoPort stEmpty "u" none none none none).2 = [] :=
  (claim_C5_port_discovery envNoPort stEmpty "u" none none none none).1 rfl rfl

/-- Claim C9: a read loop that accumulates zero bytes makes the call
return the dedicated empty-response error dictionary — for every
`json.loads` oracle, since no decode is attempted — and that outcome is
distinct from the decode-failure outcome, which is the escaping
exception `handleServiceExc none`. -/
theorem claim_C9_empty_response (env : ServiceEnv) (st : GlobalState) (url : String)
    (p h b d : Option JValue) (prt : Int)
    (hport : env.xbmcgui = false ∧ prt = 56789
      ∨ env.xbmcgui = true ∧ env.portProperty ≠ "" ∧ pyInt env.portProperty = .ok prt)
    (hconn : env.connectErr prt = none)
    (hsend : ∀ pl, env.sendErr prt pl = none)
    (hrecv : ∀ pl, env.recvData prt pl = .ok "") :
    (load_info_from_service env st url p h b d).1
      = .ok (errorObj "Empty response from service")
    ∧ (∀ loads₂, (load_info_from_service { env with jsonLoads := loads₂ } st url p h b d).1
        = .ok (errorObj "Empty response from service"))
    ∧ handleServiceExc none ≠ .ok (errorObj "Empty response from service") := by
  refine ⟨?_, ?_, ?_⟩
  · rw [service_resolves env st url p h b d prt hport]
    exact socketPhase_empty env st url p h b d prt hconn hsend hrecv
  · intro loads₂
    rw [service_resolves { env with jsonLoads := loads₂ } st url p h b d prt hport]
    exact socketPhase_empty { env with jsonLoads := loads₂ } st url p h b d prt
      hconn hsend hrecv
  · simp [handleServiceExc]

theorem claim_C9_empty_response_witness :
    (load_info_from_service envEmptyResp stEmpty "u" none none none none).1
      = .ok (errorObj "Empty response from service") :=
  (claim_C9_empty_response envEmptyResp stEmpty "u" none none none none 56789
    (Or.inl ⟨rfl, rfl⟩) rfl (fun _ => rfl) (fun _ => rfl)).1

/-- Claim C10: on a successful service result that is an object with
neither an `error` nor a `text` key, a non-JSON response type makes
`load_info` return Python `None` (`jnull`), for every caller-supplied
default. -/
theorem claim_C10_null_text (env : FacadeEnv) (st : GlobalState) (url : String)
    (params default : Option JValue) (rt : String) (d : Dict)
    (hsvc : (load_info_from_service env.service st url params
        (some (.jobj st.HEADERS)) none none).1 = .ok (.jobj d))
    (herr : dictHas d "error" = false)
    (htext : dictGet d "text" = none)
    (hrt : pyLower rt ≠ "json") :
    (load_info env st url params default rt).1 = .ok .jnull := by
  simp only [load_info, hsvc, pyContainsStr, herr, pyGet, htext]
  simp [hrt]

theorem claim_C10_null_text_witness :
    (load_info envNoText stEmpty "u" none (some (.jarr [])) "text").1 = .ok .jnull :=
  claim_C10_null_text envNoText stEmpty "u" none (some (.jarr [])) "text"
    [("status", .jnum 200)] rfl rfl rfl (by decide)

/-- Claim C6: when the service result carries an `error` key and the
direct request raises, `load_info` returns the caller's default when one
was supplied and otherwise a dictionary whose `error` message is
non-empty; no exception reaches the caller. -/
theorem claim_C6_direct_failure (env : FacadeEnv) (st : GlobalState) (url : String)
    (params default : Option JValue) (rt : String) (d : Dict) (e : PyExc)
    (hsvc : (load_info_from_service env.service st url params
        (some (.jobj st.HEADERS)) none none).1 = .ok (.jobj d))
    (herr : dictHas d "error" = true)
    (hget : env.directGet url params st.HEADERS 30 = .error e) :
    (load_info env st url params default rt).1
      = .ok (default.getD (errorObj ("Direct request failed: " ++ e.message)))
    ∧ 0 < ("Direct request failed: " ++ e.message).length := by
  constructor
  · obtain ⟨x, hx⟩ := Option.isSome_iff_exists.mp herr
    simp only [load_info, hsvc, pyContainsStr, herr, pyGetItem, hx, hget]
    cases env.service.xbmc <;> cases default <;> simp
  · rw [String.length_append]
    have h23 : ("Direct request failed: ").length = 23 := rfl
    omega

theorem claim_C6_direct_failure_witness :
    (load_info envBoth stEmpty "u" none (some (.jarr [])) "json").1 = .ok (.jarr []) :=
  (claim_C6_direct_failure envBoth stEmpty "u" none (some (.jarr [])) "json"
    [("error", .jstr "svc down")] (.oSError "refused") rfl rfl rfl).1

/-- Claim C7, counterexample: the claim says any non-2xx/3xx direct
response status is treated as a failure, but `raise_for_status` raises
only for 400–599.  With the direct endpoint answering status 103 — not a
2xx/3xx code — and body `B`, the call takes the success path and returns
the raw body rather than the failure path's default or error
dictionary. -/
theorem claim_C7_counterexample :
    ¬(200 ≤ (103 : Nat) ∧ (103 : Nat) < 400)
    ∧ env103.directGet "u" none [] 30 = .ok ⟨103, "B"⟩
    ∧ (load_info env103 stEmpty "u" none none "text").1 = .ok (.jstr "B")
    ∧ JValue.jstr "B"
        ≠ errorObj ("Direct request failed: "
            ++ ("HTTP status " ++ toString (103 : Nat))) :=
  ⟨by decide, rfl, rfl, fun h => JValue.noConfusion h⟩

/-- Claim C7 (amended): when the service result carries an `error` key,
`load_info` issues exactly one direct GET with the caller's url and
params, the process-wide headers and timeout 30; a status outside the
4xx/5xx range (the only codes `raise_for_status` rejects) yields the
parsed JSON body for a JSON response type and the raw text otherwise,
while a 4xx/5xx status takes the failure path (default or structured
error). -/
theorem claim_C7_amended_direct_request (env : FacadeEnv) (st : GlobalState) (url : String)
    (params default : Option JValue) (rt : String) (d : Dict) (resp : HttpResponse)
    (hsvc : (load_info_from_service env.service st url params
        (some (.jobj st.HEADERS)) none none).1 = .ok (.jobj d))
    (herr : dictHas d "error" = true)
    (hget : env.directGet url params st.HEADERS 30 = .ok resp) :
    (load_info env st url params default rt).2.2 = [⟨url, params, st.HEADERS, 30⟩]
    ∧ (¬(400 ≤ resp.status ∧ resp.status < 600) →
        (∀ w, pyLower rt = "json" → env.service.jsonLoads resp.text = .ok w →
          (load_info env st url params default rt).1 = .ok w)
        ∧ (pyLower rt ≠ "json" →
          (load_info env st url params default rt).1 = .ok (.jstr resp.text)))
    ∧ (400 ≤ resp.status ∧ resp.status < 600 →
        (load_info env st url params default rt).1
          = .ok (default.getD (errorObj ("Direct request failed: "
              ++ ("HTTP status " ++ toString resp.status))))) := by
  obtain ⟨x, hx⟩ := Option.isSome_iff_exists.mp herr
  refine ⟨?_, fun hst => ⟨fun w hrt hw => ?_, fun hrt => ?_⟩, fun hst => ?_⟩
  · simp only [load_info, hsvc, pyContainsStr, herr, pyGetItem, hx, hget, raiseForStatus]
    cases env.service.xbmc <;> (repeat' split) <;> first | rfl | simp_all
  · simp only [load_info, hsvc, pyContainsStr, herr, pyGetItem, hx, hget,
      raiseForStatus, if_neg hst]
    cases env.service.xbmc <;> simp [hrt, hw]
  · simp only [load_info, hsvc, pyContainsStr, herr, pyGetItem, hx, hget,
      raiseForStatus, if_neg hst]
    cases env.service.xbmc <;> simp [hrt]
  · simp only [load_info, hsvc, pyContainsStr, herr, pyGetItem, hx, hget,
      raiseForStatus, if_pos hst]
    cases env.service.xbmc <;> cases default <;> simp [PyExc.message]

theorem claim_C7_amended_direct_request_witness :
    (load_info envDirectOk stEmpty "u" none none "json").1
      = .ok (.jobj [("b", .jnum 2)]) :=
  ((claim_C7_amended_direct_request envDirectOk stEmpty "u" none none "json"
      [("error", .jstr "svc down")] ⟨200, "B"⟩ rfl rfl rfl).2.1
    (by decide)).1 (.jobj [("b", .jnum 2)]) rfl rfl

/-- Claim C8: both setters fully replace the prior process-wide state
(clear-then-update), `set_headers` with an empty mapping leaves no
headers, and a subsequent `load_info` passes exactly the header state to
the service envelope and to the direct fallback request. -/
theorem claim_C8_setters_replace (m : Dict) (st : GlobalState)
    (hnd : (m.map Prod.fst).Nodup) :
    (set_headers m st).HEADERS = m
    ∧ (set_dns_settings (some m) st).DNS_SETTINGS = m
    ∧ (set_headers [] st).HEADERS = []
    ∧ ∀ (env : FacadeEnv) (url : String) (params default : Option JValue) (rt : String),
        (∀ pl, SockEvent.send pl
            ∈ (load_info env (set_headers m st) url params default rt).2.1 →
          envelopeHeaders pl = some (.jobj (set_headers m st).HEADERS))
        ∧ ∀ r ∈ (load_info env (set_headers m st) url params default rt).2.2,
            r.headers = (set_headers m st).HEADERS := by
  refine ⟨?_, ?_, rfl, ?_⟩
  · exact dictUpdate_nil_eq m hnd
  · cases m with
    | nil => rfl
    | cons kv t =>
        show dictUpdate [] (kv :: t) = kv :: t
        exact dictUpdate_nil_eq (kv :: t) hnd
  · intro env url params default rt
    constructor
    · intro pl hpl
      rw [load_info_strace] at hpl
      exact service_send_mem env.service (set_headers m st) url params none
        (set_headers m st).HEADERS pl hpl
    · intro r hr
      rw [load_info_dreq_mem env (set_headers m st) url params default rt r hr]

theorem claim_C8_setters_replace_witness :
    (set_headers [("X", .jstr "1")] stEmpty).HEADERS = [("X", .jstr "1")]
    ∧ (set_headers [] stEmpty).HEADERS = [] :=
  ⟨(claim_C8_setters_replace [("X", .jstr "1")] stEmpty (by simp)).1,
   (claim_C8_setters_replace [("X", .jstr "1")] stEmpty (by simp)).2.2.1⟩

end TmdbApiUtils
